import Mathlib

/-!
Shallow embedding of the `darkdh/solana-provider-test` demo page
(`src/src/App.tsx`, the Phantom-only variant, and `src/unnamed/part_000`,
the Brave variant that adds v0 transactions and address lookup tables).

The page's handlers are async functions over React state.  We embed them as
pure functions: React state becomes explicit record fields, each awaited
external call (wallet provider or RPC client) is recorded in an explicit
call trace, and the response of each external call is passed in as a
parameter (an `Env` record for RPC responses, an `Except` value for a
provider call that can be rejected).  Log appends are collected as the list
of raw messages passed to `addLog`; the `"> "` prefixing that `addLog`
performs is applied by `addLog` / `addLogs` below, exactly as in the source.
-/

namespace SolanaProviderTest

/-- Public keys are carried around as their base-58 string form
(`PublicKey.toBase58` in the source); the handlers never look inside. -/
abbrev PubKey := String

/-- A block hash, as returned by the RPC client. -/
abbrev Blockhash := String

/-- `addLog` from both variants: `setLogs((logs) => [...logs, "> " + log])` —
appends exactly one entry, prefixed with `"> "`. -/
def addLog (logs : List String) (m : String) : List String :=
  logs ++ ["> " ++ m]

/-- Appending a whole list of messages through `addLog`, in order. -/
def addLogs (logs : List String) (msgs : List String) : List String :=
  msgs.foldl addLog logs

theorem addLogs_eq (msgs : List String) (logs : List String) :
    addLogs logs msgs = logs ++ msgs.map (fun m => "> " ++ m) := by
  induction msgs generalizing logs with
  | nil => simp [addLogs]
  | cons m rest ih =>
      simp only [addLogs, List.foldl_cons, List.map_cons]
      rw [show List.foldl addLog (addLog logs m) rest = addLogs (addLog logs m) rest from rfl,
        ih, addLog]
      simp

/-! ## Session state and the provider event handlers

`useState` pair `[, setConnected]` and `[publicKey, setPublicKey]`, mutated
only inside the `provider.on(...)` handlers of the second `useEffect`. -/

/-- The React state of the component that the claims talk about. -/
structure AppState where
  connected : Bool
  publicKey : Option PubKey
  logs : List String
deriving DecidableEq, Repr

/-- Events pushed by the wallet provider (`PhantomEvent` in the source). -/
inductive PEvent where
  | connect (publicKey : PubKey)
  | disconnect
  | accountChanged (publicKey : Option PubKey)
deriving DecidableEq, Repr

/-- The three `provider.on` handlers registered in the second `useEffect`
(identical in both variants):
* `connect` — `setPublicKey(publicKey); setConnected(true); addLog("[connect] " + publicKey?.toBase58())`
* `disconnect` — `setPublicKey(null); setConnected(false); addLog("[disconnect] 👋")`
* `accountChanged` — `setPublicKey(publicKey)` (the connected flag is not
  touched), then logs either the switched-account line or the
  unknown-account line; in the unknown case it also starts an async
  `provider.connect()` whose resolution is a separate step. -/
def handleEvent : PEvent → AppState → AppState
  | .connect pk, s =>
      { s with publicKey := some pk, connected := true,
               logs := addLog s.logs ("[connect] " ++ pk) }
  | .disconnect, s =>
      { s with publicKey := none, connected := false,
               logs := addLog s.logs ("[disconnect] 👋") }
  | .accountChanged (some pk), s =>
      { s with publicKey := some pk,
               logs := addLog s.logs ("[accountChanged] Switched account to " ++ pk) }
  | .accountChanged none, s =>
      { s with publicKey := none,
               logs := addLog s.logs ("[accountChanged] Switched unknown account") }

/-- The component's initial state: `connected` starts `false`,
`publicKey` starts `null`, `logs` starts `[]`. -/
def initialAppState : AppState :=
  { connected := false, publicKey := none, logs := [] }

/-- The session invariant asserted by the spec: the connected-account
identity is non-null iff the connected flag is true. -/
def sessionInvariant (s : AppState) : Prop :=
  s.publicKey.isSome = s.connected

instance (s : AppState) : Decidable (sessionInvariant s) := by
  unfold sessionInvariant; infer_instance

/-- A connect event followed by an `accountChanged(null)` event: the
reconnect attempt the handler starts is asynchronous, so this is an
observable state right after the handler has run. -/
def c1Trace : AppState :=
  handleEvent (.accountChanged none) (handleEvent (.connect "8aX5k") initialAppState)

/-! ## Instructions and transaction payloads

Modelled from the spec: the wire-level types `TransactionInstruction`,
`Transaction` and the instruction factories (`SystemProgram.transfer`,
`createTransferInstruction`, `getAssociatedTokenAddress`) live in the
external chain SDK (`@solana/web3.js`, `@solana/spl-token`), not under
`src/`; they are modelled here from their documented shapes: an
instruction is a program id, an ordered list of account metas
(pubkey / is-signer / is-writable) and opaque data bytes. -/

structure AccountMeta where
  pubkey : PubKey
  isSigner : Bool
  isWritable : Bool
deriving DecidableEq, Repr

structure Instruction where
  programId : PubKey
  keys : List AccountMeta
  data : List Nat
deriving DecidableEq, Repr

/-- Little-endian 8-byte encoding of a lamport amount. -/
def u64le (n : Nat) : List Nat :=
  [n % 256, n / 256 % 256, n / 256 ^ 2 % 256, n / 256 ^ 3 % 256,
   n / 256 ^ 4 % 256, n / 256 ^ 5 % 256, n / 256 ^ 6 % 256, n / 256 ^ 7 % 256]

def systemProgramId : PubKey := "11111111111111111111111111111111"

def tokenProgramId : PubKey := "TokenkegQfeZyiNwAJbNbGKPFXCWuBvf9Ss623VQ5DA"

/-- Modelled from the spec: `SystemProgram.transfer` (external SDK) — a
transfer instruction whose metas are the funding account (signer,
writable) followed by the recipient (writable), with a 4-byte instruction
index and an 8-byte lamport amount as data. -/
def systemTransfer (fromPubkey toPubkey : PubKey) (lamports : Nat) : Instruction :=
  { programId := systemProgramId,
    keys := [⟨fromPubkey, true, true⟩, ⟨toPubkey, false, true⟩],
    data := [2, 0, 0, 0] ++ u64le lamports }

/-- Modelled from the spec: `getAssociatedTokenAddress` (external SDK) — a
deterministic per-owner, per-mint derived address. -/
def associatedTokenAddress (mint owner : PubKey) : PubKey :=
  "ata(" ++ mint ++ "," ++ owner ++ ")"

/-- Modelled from the spec: `createTransferInstruction` (external SDK) —
an SPL token transfer: source account, destination account (both
writable), owner as signer; data is the Transfer tag and the amount. -/
def splTransferInstruction (source destination owner : PubKey) (amount : Nat) :
    Instruction :=
  { programId := tokenProgramId,
    keys := [⟨source, false, true⟩, ⟨destination, false, true⟩, ⟨owner, true, false⟩],
    data := [3] ++ u64le amount }

/-- A legacy `Transaction`: instruction list plus the two optional fields
the builders assign (`feePayer`, `recentBlockhash`).  `none` models a JS
field that was never assigned. -/
structure Transaction where
  instructions : List Instruction
  feePayer : Option PubKey
  recentBlockhash : Option Blockhash
deriving DecidableEq, Repr

/-- Options object passed to the provider's sign-and-send capability. -/
structure SendOptions where
  maxRetries : Nat
  preflightCommitment : String
  skipPreflight : Bool
deriving DecidableEq, Repr

/-- Modelled from the spec: the legacy `serializeMessage` of the external
SDK is not part of this repository; modelled as a deterministic injective
textual encoding of the payload fields it serializes. -/
def serializeMessage (tx : Transaction) : String :=
  "msg[" ++ tx.feePayer.getD "-" ++ "|" ++ tx.recentBlockhash.getD "-" ++ "|"
    ++ String.intercalate ";"
        (tx.instructions.map fun ix =>
          ix.programId ++ ":" ++ String.intercalate "," (ix.keys.map (·.pubkey))
            ++ ":" ++ String.intercalate "," (ix.data.map toString))
    ++ "]"

/-- Modelled from the spec: the external `bs58` encoder; modelled as a
deterministic injective textual wrapper. -/
def bs58encode (s : String) : String := "b58(" ++ s ++ ")"

/-- Responses of the RPC client for one run of a handler:
`getRecentBlockhash` / `getLatestBlockhash` results and the address set of
the fetched lookup table. -/
structure Env where
  recentBlockhash : Blockhash
  latestBlockhash : Blockhash
  lookupTableAddresses : List PubKey
deriving DecidableEq, Repr

/-- One awaited external call, in the order the handler performs them. -/
inductive Call where
  | getRecentBlockhash (commitment : String)
  | getLatestBlockhash
  | getAddressLookupTable (addr : PubKey)
  | providerSignAndSend (tx : Transaction) (opts : SendOptions)
  | providerRequestSignAndSend (message : String) (opts : SendOptions)
  | providerSignAllTransactions (txs : List Transaction)
  | providerConnect (onlyIfTrusted : Bool)
  | confirmTransaction (sig : String)
  | sendRawTransaction (tx : Transaction)
  | openTab (url : String)
deriving DecidableEq, Repr

/-- Result of running a payload-construction function: the payload (if
any), the external calls it made, and the messages it passed to `addLog`. -/
structure BuildOut where
  payload : Option Transaction
  calls : List Call
  logMsgs : List String
deriving DecidableEq, Repr

/-- `createTransferTransaction` (both variants): guarded on
`provider.publicKey`; builds a self-transfer of 100 lamports, sets
`feePayer`, logs `"Getting recent blockhash"`, fetches the recent
blockhash at commitment `"finalized"` (the `||` chain collapses to its
first operand), assigns it and logs the blockhash line. -/
def createTransferTransaction (pk? : Option PubKey) (env : Env) : BuildOut :=
  match pk? with
  | none => ⟨none, [], []⟩
  | some pk =>
      let bh := env.recentBlockhash
      ⟨some { instructions := [systemTransfer pk pk 100],
              feePayer := some pk, recentBlockhash := some bh },
       [.getRecentBlockhash "finalized"],
       ["Getting recent blockhash", "blockhash: " ++ bh ++ " = finalized"]⟩

def splTokenMint : PubKey := "D3tynVS3dHGoShEZQcSbsJ69DnoWunhcgya35r5Dtn4p"

def splTokenRecipient : PubKey := "5ofLtZax45EhkNSkoBrDPdWNonKmijMTsW41ckzPs2r5"

/-- The object the `App.tsx` variant of `createSplTokenTransferTransaction`
returns: the bare `TransactionInstruction` from `createTransferInstruction`
with a `recentBlockhash` property attached via an `any` cast.  It is not a
`Transaction` and no `feePayer` is ever assigned, so that field stays
absent. -/
structure SplInstructionPayload where
  instruction : Instruction
  recentBlockhash : Option Blockhash
  feePayer : Option PubKey
deriving DecidableEq, Repr

structure SplBuildOutAppTsx where
  payload : Option SplInstructionPayload
  calls : List Call
  logMsgs : List String
deriving DecidableEq, Repr

/-- `createSplTokenTransferTransaction` from `src/src/App.tsx`: derives the
two associated token addresses, builds the SPL transfer instruction, sets
`recentBlockhash` on the *instruction* object and returns it — it never
wraps the instruction in a `Transaction` and never assigns a fee payer. -/
def createSplTokenTransferTransactionAppTsx (pk? : Option PubKey) (env : Env) :
    SplBuildOutAppTsx :=
  match pk? with
  | none => ⟨none, [], []⟩
  | some pk =>
      let fromTok := associatedTokenAddress splTokenMint pk
      let toTok := associatedTokenAddress splTokenMint splTokenRecipient
      let ix := splTransferInstruction fromTok toTok pk 10000000
      let bh := env.recentBlockhash
      ⟨some { instruction := ix, recentBlockhash := some bh, feePayer := none },
       [.getRecentBlockhash "finalized"],
       ["blockhash: " ++ bh ++ " = finalized"]⟩

/-- `createSplTokenTransferTransaction` from `src/unnamed/part_000`: same
derivations, but wraps the instruction in `new Transaction().add(ins)`,
assigns `tx.feePayer = provider.publicKey` and then the recent blockhash. -/
def createSplTokenTransferTransactionP0 (pk? : Option PubKey) (env : Env) : BuildOut :=
  match pk? with
  | none => ⟨none, [], []⟩
  | some pk =>
      let fromTok := associatedTokenAddress splTokenMint pk
      let toTok := associatedTokenAddress splTokenMint splTokenRecipient
      let ix := splTransferInstruction fromTok toTok pk 10000000
      let bh := env.recentBlockhash
      ⟨some { instructions := [ix], feePayer := some pk, recentBlockhash := some bh },
       [.getRecentBlockhash "finalized"],
       ["blockhash: " ++ bh ++ " = finalized"]⟩

/-! ## Version-0 message compilation and serialized size

Modelled from the spec: `TransactionMessage.compileToV0Message`,
`VersionedTransaction` and their serialization live in the external chain
SDK, not under `src/`.  They are modelled here from the documented v0
message wire format: a version prefix byte, a 3-byte header, a
compact-length-prefixed array of 32-byte static account keys, a 32-byte
recent blockhash, the compiled instructions (1 byte program-id index, a
compact array of 1-byte account indices, compact-length-prefixed data)
and a compact array of address-table lookups (32-byte table address plus
compact arrays of 1-byte writable and readonly indices).  Compilation
collects each referenced key once, merging signer/writable flags and
marking invoked program ids; a lookup table drains the non-signer,
non-invoked keys it contains out of the static list, and a table that
resolves no key is omitted. -/

structure KeyMeta where
  isSigner : Bool
  isWritable : Bool
  isInvoked : Bool
deriving DecidableEq, Repr

/-- Insert-or-update in an association list keyed by pubkey, preserving
first-insertion order. -/
def upsert (m : List (PubKey × KeyMeta)) (k : PubKey) (f : KeyMeta → KeyMeta) :
    List (PubKey × KeyMeta) :=
  match m with
  | [] => [(k, f ⟨false, false, false⟩)]
  | (k₂, v) :: rest =>
      if k = k₂ then (k₂, f v) :: rest else (k₂, v) :: upsert rest k f

/-- Collect the key metas of a message: the payer (signer, writable), each
instruction's program id (invoked) and each instruction's account metas
(flags merged by disjunction). -/
def collectKeyMetas (payer : PubKey) (instrs : List Instruction) :
    List (PubKey × KeyMeta) :=
  let m0 := upsert [] payer (fun km => { km with isSigner := true, isWritable := true })
  instrs.foldl
    (fun m ix =>
      let m1 := upsert m ix.programId (fun km => { km with isInvoked := true })
      ix.keys.foldl
        (fun m meta =>
          upsert m meta.pubkey
            (fun km => { km with isSigner := km.isSigner || meta.isSigner,
                                 isWritable := km.isWritable || meta.isWritable }))
        m1)
    m0

/-- Whether a collected key may be resolved through a lookup table:
non-signer and not an invoked program id. -/
def tableResolvable (km : KeyMeta) : Bool := !km.isSigner && !km.isInvoked

/-- Drain one table: split the collected keys into those kept static and
the counts of writable / readonly keys moved into the table's lookup. -/
def drainTable (m : List (PubKey × KeyMeta)) (table : List PubKey) :
    List (PubKey × KeyMeta) × Nat × Nat :=
  let moved := m.filter fun e => tableResolvable e.2 && table.contains e.1
  let kept := m.filter fun e => !(tableResolvable e.2 && table.contains e.1)
  (kept, (moved.filter fun e => e.2.isWritable).length,
         (moved.filter fun e => !e.2.isWritable).length)

/-- Drain every table in order; tables that resolve no key are omitted
from the lookups section. -/
def drainTables (m : List (PubKey × KeyMeta)) (tables : List (List PubKey)) :
    List (PubKey × KeyMeta) × List (Nat × Nat) :=
  match tables with
  | [] => (m, [])
  | t :: rest =>
      let (kept, w, r) := drainTable m t
      let (finalKeys, lookups) := drainTables kept rest
      (finalKeys, if w + r = 0 then lookups else (w, r) :: lookups)

/-- Byte length of a compact-u16 length prefix. -/
def compactLen (n : Nat) : Nat :=
  if n < 128 then 1 else if n < 16384 then 2 else 3

/-- Serialized byte size of a compiled v0 message. -/
def v0MessageSize (payer : PubKey) (instrs : List Instruction)
    (tables : List (List PubKey)) : Nat :=
  let m := collectKeyMetas payer instrs
  let (staticKeys, lookups) := drainTables m tables
  let nStatic := staticKeys.length
  let instrsSize :=
    compactLen instrs.length
      + (instrs.map fun ix =>
          1 + compactLen ix.keys.length + ix.keys.length
            + compactLen ix.data.length + ix.data.length).sum
  let lookupsSize :=
    compactLen lookups.length
      + (lookups.map fun p =>
          32 + compactLen p.1 + p.1 + compactLen p.2 + p.2).sum
  1 + 3 + compactLen nStatic + 32 * nStatic + 32 + instrsSize + lookupsSize

/-- A versioned (v0) transaction as built by the handlers: the compiled
message is kept in symbolic form (payer, blockhash, instructions, tables),
with its serialized size given by `v0MessageSize`. -/
structure V0Transaction where
  payerKey : PubKey
  recentBlockhash : Blockhash
  instructions : List Instruction
  tables : List (List PubKey)
deriving DecidableEq, Repr

def V0Transaction.messageSize (tx : V0Transaction) : Nat :=
  v0MessageSize tx.payerKey tx.instructions tx.tables

structure V0BuildOut where
  payload : Option V0Transaction
  calls : List Call
  logMsgs : List String
deriving DecidableEq, Repr

/-- `createTransferTransactionV0` (`src/unnamed/part_000`): guarded on
`provider.publicKey`; fetches the latest blockhash, compiles a
self-transfer of 100 lamports to a v0 message with no lookup table. -/
def createTransferTransactionV0 (pk? : Option PubKey) (env : Env) : V0BuildOut :=
  match pk? with
  | none => ⟨none, [], []⟩
  | some pk =>
      ⟨some { payerKey := pk, recentBlockhash := env.latestBlockhash,
              instructions := [systemTransfer pk pk 100], tables := [] },
       [.getLatestBlockhash], []⟩

/-- The fixed devnet recipient `kTestToPublicKeyInTableLookup`. -/
def kTestToPublicKeyInTableLookup : PubKey :=
  "Ed8JG8SuyLgG6A9Km3PSKtVD8a4Xoqr6cATfswZKbQCW"

/-- The fixed devnet lookup-table address used by the handlers. -/
def demoLookupTableAddress : PubKey := "CE7eEn3x97iC1qRZPvpJJk2AuPzwchQ6RHSy6f1U1jxu"

/-- `createTransferTransactionV0WithLookupTable` (`src/unnamed/part_000`):
guarded on `provider.publicKey`; fetches the lookup table account, then the
latest blockhash, and compiles a transfer of 100 lamports to the fixed test
recipient against that table. -/
def createTransferTransactionV0WithLookupTable (pk? : Option PubKey)
    (lookupTableAddress : PubKey) (env : Env) : V0BuildOut :=
  match pk? with
  | none => ⟨none, [], []⟩
  | some pk =>
      ⟨some { payerKey := pk, recentBlockhash := env.latestBlockhash,
              instructions := [systemTransfer pk kTestToPublicKeyInTableLookup 100],
              tables := [env.lookupTableAddresses] },
       [.getAddressLookupTable lookupTableAddress, .getLatestBlockhash], []⟩

/-! ## Sign-and-send handlers -/

/-- Result of running a button handler: the external calls made and the
messages passed to `addLog`. -/
structure HandlerOut where
  calls : List Call
  logMsgs : List String
deriving DecidableEq, Repr

/-- `callSignAndSendTransaction` (`src/unnamed/part_000`): invokes
`window.solana.signAndSendTransaction` with `maxRetries: 3`, the given
preflight commitment and `skipPreflight: false`; on success awaits
`connection.confirmTransaction(signature)` and logs the confirmed line.
The provider's response is passed in as `res`. -/
def callSignAndSendTransaction (tx : Transaction) (preflightCommitment : String)
    (res : Except String String) : HandlerOut :=
  match res with
  | .error _ => ⟨[.providerSignAndSend tx ⟨3, preflightCommitment, false⟩], []⟩
  | .ok sig =>
      ⟨[.providerSignAndSend tx ⟨3, preflightCommitment, false⟩,
        .confirmTransaction sig],
       ["Transaction " ++ sig ++ " confirmed"]⟩

/-- `signAndSendTransaction` (`src/unnamed/part_000`), the direct path:
builds the legacy transfer, returns early if it is absent, and otherwise
runs `callSignAndSendTransaction(transaction, "finalized")`; a rejection is
caught and logged with the `[error] sendTransaction:` line. -/
def signAndSendTransactionRun (pk? : Option PubKey) (env : Env)
    (res : Except String String) : HandlerOut :=
  let b := createTransferTransaction pk? env
  match b.payload with
  | none => ⟨b.calls, b.logMsgs⟩
  | some tx =>
      let c := callSignAndSendTransaction tx "finalized" res
      match res with
      | .error e =>
          ⟨b.calls ++ c.calls, b.logMsgs ++ c.logMsgs ++ ["[error] sendTransaction: " ++ e]⟩
      | .ok _ => ⟨b.calls ++ c.calls, b.logMsgs ++ c.logMsgs⟩

/-- `signAndSendTransactionRequest` (`src/unnamed/part_000`), the generic
path: builds the same legacy transfer, returns early if absent, then calls
`window.solana.request` with method `"signAndSendTransaction"`, the
base-58-encoded serialized message, and option
`{ maxRetries: 3, preflightCommitment: "confirmed", skipPreflight: false }`;
on success awaits confirmation and logs the confirmed line; a rejection is
caught and logged with the `[error] sendTransaction:` line. -/
def signAndSendTransactionRequestRun (pk? : Option PubKey) (env : Env)
    (res : Except String String) : HandlerOut :=
  let b := createTransferTransaction pk? env
  match b.payload with
  | none => ⟨b.calls, b.logMsgs⟩
  | some tx =>
      let msg := bs58encode (serializeMessage tx)
      match res with
      | .error e =>
          ⟨b.calls ++ [.providerRequestSignAndSend msg ⟨3, "confirmed", false⟩],
           b.logMsgs ++ ["[error] sendTransaction: " ++ e]⟩
      | .ok sig =>
          ⟨b.calls ++ [.providerRequestSignAndSend msg ⟨3, "confirmed", false⟩,
                       .confirmTransaction sig],
           b.logMsgs ++ ["Transaction " ++ sig ++ " confirmed"]⟩

/-- Extract the options of the provider sign-and-send invocation (direct or
generic-request form) from a call. -/
def sendOptionsOf : Call → Option SendOptions
  | .providerSignAndSend _ o => some o
  | .providerRequestSignAndSend _ o => some o
  | _ => none

/-! ## Batch signing (`signMultipleTransactions`, legacy branch)

The wallet provider is external to the repository; its batch-signing
contract (one signature result per submitted payload, in order) is
modelled by a per-payload signing function `sign` mapped over the
submitted list. -/

structure MultiOut where
  signAllInput : Option (List Transaction)
  signedTxns : List Transaction
  calls : List Call
  logMsgs : List String
deriving DecidableEq, Repr

/-- `signMultipleTransactions` (legacy branch, identical in both variants):
builds two transfers in parallel; if both are present, calls
`provider.signAllTransactions` with `[transaction1]` when `onlyFirst` and
with `[transaction1, transaction2]` otherwise, logs the signed list, sends
each signed payload independently and logs the sent list. -/
def signMultipleTransactionsRun (onlyFirst : Bool) (pk? : Option PubKey) (env : Env)
    (sign : Transaction → Transaction) : MultiOut :=
  let b1 := createTransferTransaction pk? env
  let b2 := createTransferTransaction pk? env
  match b1.payload, b2.payload with
  | some t1, some t2 =>
      let input := if onlyFirst then [t1] else [t1, t2]
      let txns := input.map sign
      ⟨some input, txns,
       b1.calls ++ b2.calls ++ [.providerSignAllTransactions input]
         ++ txns.map .sendRawTransaction,
       b1.logMsgs ++ b2.logMsgs ++ ["signMultipleTransactions txns", "sent raw txns"]⟩
  | _, _ => ⟨none, [], b1.calls ++ b2.calls, b1.logMsgs ++ b2.logMsgs⟩

/-! ## Provider detection (`getProvider`) -/

/-- The injected `window.solana` object, as far as detection inspects it. -/
structure SolanaObject where
  isPhantom : Bool
deriving DecidableEq, Repr

/-- The host window: `solana = none` models `"solana" in window` failing. -/
structure HostWindow where
  solana : Option SolanaObject
deriving DecidableEq, Repr

/-- `getProvider` (both variants): returns `window.solana` when it is
present and `isPhantom` holds; in every other case falls through to
`window.open("https://phantom.app/", "_blank")` and returns `undefined`.
The second component records the tabs opened. -/
def getProvider (w : HostWindow) : Option SolanaObject × List String :=
  match w.solana with
  | some p => if p.isPhantom then (some p, []) else (none, ["https://phantom.app/"])
  | none => (none, ["https://phantom.app/"])

/-! ## Cluster selection -/

inductive Cluster where
  | devnet
  | testnet
  | mainnetBeta
deriving DecidableEq, Repr

/-- The string value of the `<option>` elements. -/
def Cluster.name : Cluster → String
  | .devnet => "devnet"
  | .testnet => "testnet"
  | .mainnetBeta => "mainnet-beta"

/-- Modelled from the spec: `clusterApiUrl` of the external SDK maps each
cluster name to its public RPC endpoint. -/
def clusterApiUrl (c : Cluster) : String :=
  "https://api." ++ c.name ++ ".solana.com"

/-- The network-context slice of the component state. -/
structure NetState where
  cluster : Cluster
  connectionUrl : String
  logs : List String
deriving DecidableEq, Repr

/-- The `<select>` `onChange` handler plus the `useEffect` on `[cluster]`:
`setConnection(new Connection(clusterApiUrl(newCluster)))`, then
`setCluster(newCluster)`; the effect re-runs exactly when the cluster value
changed, appending the `[cluster changed]` line once. -/
def selectClusterOnChange (c : Cluster) (s : NetState) : NetState :=
  { cluster := c,
    connectionUrl := clusterApiUrl c,
    logs := if c = s.cluster then s.logs
            else addLog s.logs ("[cluster changed] " ++ c.name) }

/-! ## Rejected provider calls: the catch sites -/

/-- Every catch site of a provider call in the two variants, identified by
the handler it belongs to. -/
inductive RejectedCall where
  | connectButton
  | connectRequestButton
  | disconnectButton
  | disconnectRequestButton
  | eagerConnectButton
  | eagerConnectRequestButton
  | signAndSendTransaction
  | signAndSendTransactionV0
  | signAndSendTransactionV0WithLookupTable
  | signAndSendTransactionRequest
  | signAndSendSplTokenTransaction
  | signSingleTransctionAppTsx
  | signSingleTransctionRequestAppTsx
  | signSingleTransactionP0
  | signSingleTransactionRequestP0
  | signMultipleTransactions
  | signMultipleTransactionsRequest
  | signMessage
  | signMessageRequest
  | eagerConnectEffect
  | accountChangedReconnect
deriving DecidableEq, Repr

/-- The label each catch block logs after `[error] ` (from the source text
of each catch), for the catch sites that log an error line. -/
def RejectedCall.errLabel : RejectedCall → Option String
  | .connectButton => some "connect"
  | .connectRequestButton => some "connect"
  | .disconnectButton => some "disconnect"
  | .disconnectRequestButton => some "disconnect"
  | .eagerConnectButton => some "eagerly connect"
  | .eagerConnectRequestButton => some "eagerly connect"
  | .signAndSendTransaction => some "sendTransaction"
  | .signAndSendTransactionV0 => some "sendTransaction"
  | .signAndSendTransactionV0WithLookupTable => some "sendTransaction"
  | .signAndSendTransactionRequest => some "sendTransaction"
  | .signAndSendSplTokenTransaction => some "sendTransaction"
  | .signSingleTransctionAppTsx => some "signSingleTransction"
  | .signSingleTransctionRequestAppTsx => some "signSingleTransction"
  | .signSingleTransactionP0 => some "signSingleTransaction"
  | .signSingleTransactionRequestP0 => some "signSingleTransaction"
  | .signMultipleTransactions => some "signMultipleTransactions"
  | .signMultipleTransactionsRequest => some "signMultipleTransactions"
  | .signMessage => some "signMessage"
  | .signMessageRequest => some "signMessage"
  | .eagerConnectEffect => none
  | .accountChangedReconnect => none

/-- The state change each catch block performs when its provider call
rejects with message `err`: the ordinary catch blocks append one
`[error] <label>: <err>` line (`console.warn` aside); the eager-connect
effect's catch is empty (`// fail silently`); the `accountChanged`
reconnect catch appends one `[accountChanged] Failed to re-connect:` line.
No catch block touches `connected` or `publicKey`. -/
def runRejected (c : RejectedCall) (err : String) (s : AppState) : AppState :=
  match c.errLabel with
  | some label => { s with logs := addLog s.logs ("[error] " ++ label ++ ": " ++ err) }
  | none =>
      match c with
      | .accountChangedReconnect =>
          { s with logs := addLog s.logs ("[accountChanged] Failed to re-connect: " ++ err) }
      | _ => s

/-- A concrete run environment: a recent blockhash, a latest blockhash, and
(for the lookup-table flows) the address set of the devnet demo table,
which `extendAddressLookupTable` populated with the connected account and
the fixed test recipient. -/
def demoEnv : Env :=
  { recentBlockhash := "FwRYtTPRk5N4wUeP87rTw9kQVSwigB6kbikGzzeCMrW5",
    latestBlockhash := "9sHcv6xwn9YPscsSwvCNSk4pMbSP5dkYaf82PJGFbtDz",
    lookupTableAddresses := ["8aX5k", kTestToPublicKeyInTableLookup] }

/-- The raw messages a rejected provider call's catch block passes to
`addLog`. -/
def rejectionLogMsgs (c : RejectedCall) (err : String) : List String :=
  match c.errLabel with
  | some label => ["[error] " ++ label ++ ": " ++ err]
  | none =>
      match c with
      | .accountChangedReconnect => ["[accountChanged] Failed to re-connect: " ++ err]
      | _ => []

theorem runRejected_logs (c : RejectedCall) (err : String) (s : AppState) :
    (runRejected c err s).logs = addLogs s.logs (rejectionLogMsgs c err) := by
  cases c <;>
    simp [runRejected, rejectionLogMsgs, RejectedCall.errLabel, addLogs, addLog]

/-! ## Theorems -/

/-- C1 (counterexample): the claim "after any connect, disconnect, or
accountChanged event handler has run, publicKey is non-null iff connected
is true" fails: after a connect event for account `8aX5k` followed by an
`accountChanged(null)` event, the handler has set `publicKey` to null but
left `connected` true (it never calls `setConnected`), so the invariant is
violated at that observed point. -/
theorem c1_counterexample :
    c1Trace.connected = true ∧ c1Trace.publicKey = none ∧ ¬ sessionInvariant c1Trace := by
  refine ⟨rfl, rfl, ?_⟩
  simp [c1Trace, sessionInvariant, handleEvent, initialAppState]

/-- C1 (amended): after any connect or disconnect handler has run, the
connected-account identity is non-null iff the connected flag is true; the
accountChanged handler records the supplied identity but leaves the
connected flag unchanged, so after `accountChanged(null)` while connected
(its reconnect attempt still pending) the identity is null while the flag
is still true. -/
theorem c1_amended (s : AppState) (pk : PubKey) (opk : Option PubKey) :
    sessionInvariant (handleEvent (.connect pk) s) ∧
    sessionInvariant (handleEvent .disconnect s) ∧
    (handleEvent (.accountChanged opk) s).connected = s.connected ∧
    (handleEvent (.accountChanged opk) s).publicKey = opk := by
  refine ⟨?_, ?_, ?_, ?_⟩ <;> cases opk <;> simp [handleEvent, sessionInvariant]

/-- A state with one prior log line, used as the concrete state at which
the eager-connect rejection is observed. -/
def c3State : AppState :=
  { connected := false, publicKey := none, logs := ["> [cluster changed] devnet"] }

/-- C3 (counterexample): the claim "every rejected provider call appends
exactly one additional log entry prefixed with an error marker" fails at
the eager-connect call of the mount effect: its catch block is empty
(`// fail silently`), so a rejection appends zero log entries. -/
theorem c3_counterexample :
    (runRejected .eagerConnectEffect "User rejected the request." c3State).logs.length
        = c3State.logs.length ∧
    ¬ ((runRejected .eagerConnectEffect "User rejected the request." c3State).logs.length
        = c3State.logs.length + 1) := by
  refine ⟨rfl, ?_⟩
  simp [runRejected, RejectedCall.errLabel, c3State]

/-- C3 (amended): every rejected provider call caught in a user-invoked
handler appends exactly one additional log entry prefixed with the
`[error]` marker and leaves the Session state (connected flag and account
identity) unchanged; the two exceptions are the mount effect's eager
connect, whose rejection is silently ignored (no log entry, state
unchanged), and the accountChanged reconnect, whose rejection appends one
entry prefixed `[accountChanged]` instead of the error marker. -/
theorem c3_amended (c : RejectedCall) (err : String) (s : AppState)
    (h1 : c ≠ .eagerConnectEffect) (h2 : c ≠ .accountChangedReconnect) :
    ((runRejected c err s).connected = s.connected ∧
     (runRejected c err s).publicKey = s.publicKey ∧
     ∃ label, c.errLabel = some label ∧
       (runRejected c err s).logs = s.logs ++ ["> [error] " ++ label ++ ": " ++ err]) ∧
    (runRejected .eagerConnectEffect err s = s) ∧
    ((runRejected .accountChangedReconnect err s).connected = s.connected ∧
     (runRejected .accountChangedReconnect err s).publicKey = s.publicKey ∧
     (runRejected .accountChangedReconnect err s).logs
        = s.logs ++ ["> [accountChanged] Failed to re-connect: " ++ err]) := by
  refine ⟨?_, ?_, ?_⟩
  · cases c <;>
      simp_all [runRejected, RejectedCall.errLabel, addLog, ← String.append_assoc]
  · simp [runRejected, RejectedCall.errLabel]
  · simp [runRejected, RejectedCall.errLabel, addLog, ← String.append_assoc]

/-- C3 (witness): the amended statement applied to the connect button's
catch with rejection message `"User rejected the request."`. -/
theorem c3_amended_witness :
    ((runRejected .connectButton "User rejected the request." c3State).connected
        = c3State.connected ∧
     (runRejected .connectButton "User rejected the request." c3State).publicKey
        = c3State.publicKey ∧
     ∃ label, RejectedCall.connectButton.errLabel = some label ∧
       (runRejected .connectButton "User rejected the request." c3State).logs
          = c3State.logs ++ ["> [error] " ++ label ++ ": " ++ "User rejected the request."]) ∧
    (runRejected .eagerConnectEffect "User rejected the request." c3State = c3State) ∧
    ((runRejected .accountChangedReconnect "User rejected the request." c3State).connected
        = c3State.connected ∧
     (runRejected .accountChangedReconnect "User rejected the request." c3State).publicKey
        = c3State.publicKey ∧
     (runRejected .accountChangedReconnect "User rejected the request." c3State).logs
        = c3State.logs
            ++ ["> [accountChanged] Failed to re-connect: " ++ "User rejected the request."]) :=
  c3_amended .connectButton "User rejected the request." c3State
    (by decide) (by decide)

/-- C7: for every cluster selection differing from the current one — and
`devnet`, `testnet`, `mainnet-beta` are all the inhabitants of `Cluster` —
the `onChange` handler replaces the RPC connection handle with a client
pointed at `clusterApiUrl` of the new cluster, records the new cluster,
and the `[cluster]` effect appends exactly one `[cluster changed]` log
line. -/
theorem c7_cluster_change (c : Cluster) (s : NetState) (h : c ≠ s.cluster) :
    (selectClusterOnChange c s).connectionUrl = clusterApiUrl c ∧
    (selectClusterOnChange c s).cluster = c ∧
    (selectClusterOnChange c s).logs = s.logs ++ ["> [cluster changed] " ++ c.name] := by
  simp [selectClusterOnChange, addLog, h, ← String.append_assoc]

/-- C7 (witness): switching from the initial devnet selection to testnet. -/
theorem c7_cluster_change_witness :
    (Cluster.testnet ≠ Cluster.devnet) ∧
    ((selectClusterOnChange .testnet
        ⟨.devnet, clusterApiUrl .devnet, []⟩).connectionUrl = clusterApiUrl .testnet ∧
     (selectClusterOnChange .testnet
        ⟨.devnet, clusterApiUrl .devnet, []⟩).cluster = .testnet ∧
     (selectClusterOnChange .testnet ⟨.devnet, clusterApiUrl .devnet, []⟩).logs
        = [] ++ ["> [cluster changed] " ++ Cluster.testnet.name]) :=
  ⟨by decide,
   c7_cluster_change .testnet ⟨.devnet, clusterApiUrl .devnet, []⟩ (by decide)⟩

/-- C8: `getProvider` returns the injected object iff `window.solana` is
present and self-identifies via `isPhantom`; in every other case it opens
the Phantom install page in a new tab and returns an absent value, and in
the success case it opens no tab. -/
theorem c8_getProvider (w : HostWindow) :
    ((getProvider w).1.isSome ↔ ∃ p, w.solana = some p ∧ p.isPhantom = true) ∧
    ((getProvider w).1 = none → (getProvider w).2 = ["https://phantom.app/"]) ∧
    (∀ p, w.solana = some p → p.isPhantom = true → getProvider w = (some p, [])) := by
  obtain ⟨os⟩ := w
  cases os with
  | none => simp [getProvider]
  | some p =>
      cases hp : p.isPhantom <;> simp [getProvider, hp]

/-- C8 (witness): the three-part statement at a window carrying a
non-Phantom injected object: no provider is returned and the install page
is opened. -/
theorem c8_getProvider_witness :
    (((getProvider ⟨some ⟨false⟩⟩).1.isSome
        ↔ ∃ p, (HostWindow.mk (some ⟨false⟩)).solana = some p ∧ p.isPhantom = true) ∧
     ((getProvider ⟨some ⟨false⟩⟩).1 = none
        → (getProvider ⟨some ⟨false⟩⟩).2 = ["https://phantom.app/"]) ∧
     (∀ p, (HostWindow.mk (some ⟨false⟩)).solana = some p → p.isPhantom = true
        → getProvider ⟨some ⟨false⟩⟩ = (some p, []))) :=
  c8_getProvider ⟨some ⟨false⟩⟩

/-- C10: with no connected account (`provider.publicKey` null), every
payload-construction function returns an absent payload having made no
external call (in particular no block-reference fetch) and logged nothing,
and the sign-and-send handlers return early without invoking any provider
signing capability and without appending any (error) log entry. -/
theorem c10_no_account (env : Env) (res : Except String String)
    (onlyFirst : Bool) (sign : Transaction → Transaction) (addr : PubKey) :
    createTransferTransaction none env = ⟨none, [], []⟩ ∧
    createSplTokenTransferTransactionAppTsx none env = ⟨none, [], []⟩ ∧
    createSplTokenTransferTransactionP0 none env = ⟨none, [], []⟩ ∧
    createTransferTransactionV0 none env = ⟨none, [], []⟩ ∧
    createTransferTransactionV0WithLookupTable none addr env = ⟨none, [], []⟩ ∧
    signAndSendTransactionRun none env res = ⟨[], []⟩ ∧
    signAndSendTransactionRequestRun none env res = ⟨[], []⟩ ∧
    signMultipleTransactionsRun onlyFirst none env sign = ⟨none, [], [], []⟩ := by
  refine ⟨rfl, rfl, rfl, rfl, rfl, ?_, ?_, ?_⟩ <;>
    simp [signAndSendTransactionRun, signAndSendTransactionRequestRun,
      signMultipleTransactionsRun, createTransferTransaction]

/-- C2 (counterexample): the claim that the generic-request path performs
the provider call with the same options as the direct path fails: for a
connected account and a successful response, the direct path
(`signAndSendTransaction` via `callSignAndSendTransaction`) passes
`preflightCommitment: "finalized"` while the request path
(`signAndSendTransactionRequest`) passes `preflightCommitment: "confirmed"`,
so the two option records differ. -/
theorem c2_counterexample :
    ((signAndSendTransactionRun (some "8aX5k") demoEnv
        (.ok "5sigDemo")).calls.filterMap sendOptionsOf).map SendOptions.preflightCommitment
      = ["finalized"] ∧
    ((signAndSendTransactionRequestRun (some "8aX5k") demoEnv
        (.ok "5sigDemo")).calls.filterMap sendOptionsOf).map SendOptions.preflightCommitment
      = ["confirmed"] ∧
    ¬ ((signAndSendTransactionRun (some "8aX5k") demoEnv
          (.ok "5sigDemo")).calls.filterMap sendOptionsOf
        = (signAndSendTransactionRequestRun (some "8aX5k") demoEnv
            (.ok "5sigDemo")).calls.filterMap sendOptionsOf) := by
  refine ⟨rfl, rfl, ?_⟩
  decide

/-- C2 (amended): for every connected account and successful response, the
generic-request path dispatches method `"signAndSendTransaction"` with the
base-58-serialized message of the same transfer payload, the same
`maxRetries` (3) and `skipPreflight` (false), the same confirmation call
and the same success log line as the direct path; the one difference is
the preflight commitment: `"finalized"` on the direct path versus
`"confirmed"` on the request path. -/
theorem c2_amended (pk : PubKey) (env : Env) (sig : String) :
    (signAndSendTransactionRun (some pk) env (.ok sig)).calls.filterMap sendOptionsOf
      = [⟨3, "finalized", false⟩] ∧
    (signAndSendTransactionRequestRun (some pk) env (.ok sig)).calls.filterMap sendOptionsOf
      = [⟨3, "confirmed", false⟩] ∧
    Call.confirmTransaction sig ∈ (signAndSendTransactionRun (some pk) env (.ok sig)).calls ∧
    Call.confirmTransaction sig
      ∈ (signAndSendTransactionRequestRun (some pk) env (.ok sig)).calls ∧
    (signAndSendTransactionRun (some pk) env (.ok sig)).logMsgs.getLast?
      = some ("Transaction " ++ sig ++ " confirmed") ∧
    (signAndSendTransactionRequestRun (some pk) env (.ok sig)).logMsgs.getLast?
      = some ("Transaction " ++ sig ++ " confirmed") ∧
    ∃ tx, (createTransferTransaction (some pk) env).payload = some tx ∧
      Call.providerRequestSignAndSend (bs58encode (serializeMessage tx)) ⟨3, "confirmed", false⟩
        ∈ (signAndSendTransactionRequestRun (some pk) env (.ok sig)).calls := by
  refine ⟨?_, ?_, ?_, ?_, ?_, ?_, ?_⟩ <;>
    simp [signAndSendTransactionRun, signAndSendTransactionRequestRun,
      createTransferTransaction, callSignAndSendTransaction, sendOptionsOf]

/-- C4: in the legacy batch flow, with a connected account, `onlyFirst`
true invokes `provider.signAllTransactions` with exactly `[transaction1]`
and yields exactly one signed payload, and `onlyFirst` false invokes it
with exactly `[transaction1, transaction2]` and yields exactly two signed
payloads in input order.  The external provider's batch contract (one
signature per submitted payload, in order) is modelled by mapping `sign`. -/
theorem c4_batch_sign (pk : PubKey) (env : Env) (sign : Transaction → Transaction) :
    ∃ t1 t2,
      (createTransferTransaction (some pk) env).payload = some t1 ∧
      (createTransferTransaction (some pk) env).payload = some t2 ∧
      (signMultipleTransactionsRun true (some pk) env sign).signAllInput = some [t1] ∧
      (signMultipleTransactionsRun true (some pk) env sign).signedTxns = [sign t1] ∧
      (signMultipleTransactionsRun true (some pk) env sign).signedTxns.length = 1 ∧
      (signMultipleTransactionsRun false (some pk) env sign).signAllInput = some [t1, t2] ∧
      (signMultipleTransactionsRun false (some pk) env sign).signedTxns
        = [sign t1, sign t2] ∧
      (signMultipleTransactionsRun false (some pk) env sign).signedTxns.length = 2 := by
  refine ⟨_, _, rfl, rfl, ?_, ?_, ?_, ?_, ?_, ?_⟩ <;>
    simp [signMultipleTransactionsRun, createTransferTransaction]

/-- C5: evaluation at the failing input.  With a connected account, the
`App.tsx` variant's `createSplTokenTransferTransaction` hands the signing
call a payload carrying a freshness token but **no** fee-payer identity
(the function returns the bare instruction and never assigns `feePayer`),
while the `part_000` variant of the same builder and the legacy transfer
builder both attach fee payer and recent blockhash as the claim states. -/
theorem c5_spl_missing_feePayer :
    ∃ p, (createSplTokenTransferTransactionAppTsx (some "8aX5k") demoEnv).payload = some p ∧
      p.feePayer = none ∧
      p.recentBlockhash = some demoEnv.recentBlockhash ∧
      (∃ tx, (createSplTokenTransferTransactionP0 (some "8aX5k") demoEnv).payload = some tx ∧
        tx.feePayer = some "8aX5k" ∧ tx.recentBlockhash = some demoEnv.recentBlockhash) ∧
      (∃ tx, (createTransferTransaction (some "8aX5k") demoEnv).payload = some tx ∧
        tx.feePayer = some "8aX5k" ∧ tx.recentBlockhash = some demoEnv.recentBlockhash) :=
  ⟨_, rfl, rfl, rfl, ⟨_, rfl, rfl, rfl⟩, ⟨_, rfl, rfl, rfl⟩⟩

/-- C6 (counterexample): the claim that compiling with the lookup table
never expands the message fails: for the transfer instruction set actually
built by `createTransferTransactionV0WithLookupTable` (one transfer to the
table-listed test recipient), the with-table message serializes to 155
bytes while the same instruction set compiled without the table serializes
to 152 bytes — moving the single resolvable key saves 32 static-key bytes
but adds a 35-byte lookup section. -/
theorem c6_counterexample :
    ∃ txw,
      (createTransferTransactionV0WithLookupTable (some "8aX5k") demoLookupTableAddress
          demoEnv).payload = some txw ∧
      txw.messageSize = 155 ∧
      v0MessageSize "8aX5k" txw.instructions [] = 152 ∧
      ¬ (txw.messageSize ≤ v0MessageSize "8aX5k" txw.instructions []) := by
  refine ⟨_, rfl, ?_, ?_, ?_⟩ <;> decide

/-- C6 (amended): for the same instruction set, compiling against the
demo lookup table changes the serialized size by the per-table trade-off:
one resolvable key saves 32 static bytes but costs a 35-byte lookup
entry, so for the repository's single-transfer instruction set the
with-table payload is exactly 3 bytes larger than the payload compiled
without the table, for every payer distinct from the fixed recipient and
the system program. -/
theorem c6_amended (payer : PubKey)
    (h1 : payer ≠ kTestToPublicKeyInTableLookup) (h2 : payer ≠ systemProgramId) :
    v0MessageSize payer [systemTransfer payer kTestToPublicKeyInTableLookup 100]
        [[payer, kTestToPublicKeyInTableLookup]]
      = v0MessageSize payer [systemTransfer payer kTestToPublicKeyInTableLookup 100] [] + 3 := by
  have h3 : kTestToPublicKeyInTableLookup ≠ systemProgramId := by decide
  simp [v0MessageSize, collectKeyMetas, upsert, systemTransfer, drainTables, drainTable,
    tableResolvable, compactLen, u64le, h1, h2, h3, Ne.symm h1, Ne.symm h2, Ne.symm h3]

/-- C6 (witness): the amended size relation at the concrete test payer. -/
theorem c6_amended_witness :
    ("8aX5k" ≠ kTestToPublicKeyInTableLookup ∧ "8aX5k" ≠ systemProgramId) ∧
    v0MessageSize "8aX5k" [systemTransfer "8aX5k" kTestToPublicKeyInTableLookup 100]
        [["8aX5k", kTestToPublicKeyInTableLookup]]
      = v0MessageSize "8aX5k" [systemTransfer "8aX5k" kTestToPublicKeyInTableLookup 100] []
          + 3 :=
  ⟨⟨by decide, by decide⟩, c6_amended "8aX5k" (by decide) (by decide)⟩

/-- C9: the log is strictly append-only and every modelled operation
mutates it only through `addLog`: `addLog` appends exactly one entry at
the end, prefixed with `"> "`, leaving existing entries untouched;
`addLogs` routes whole message lists through it; and every provider event
handler, every rejected-call catch block and the cluster-change handler
extend the previous log with `"> "`-prefixed entries only. -/
theorem c9_append_only :
    (∀ logs m, (addLog logs m).length = logs.length + 1 ∧
       (addLog logs m).take logs.length = logs ∧
       addLog logs m = logs ++ ["> " ++ m]) ∧
    (∀ logs msgs, addLogs logs msgs = logs ++ msgs.map (fun m => "> " ++ m)) ∧
    (∀ e s, ∃ msgs : List String, (handleEvent e s).logs = s.logs ++ msgs.map (fun m => "> " ++ m)) ∧
    (∀ c err s, ∃ msgs : List String,
       (runRejected c err s).logs = s.logs ++ msgs.map (fun m => "> " ++ m)) ∧
    (∀ c s, ∃ msgs : List String,
       (selectClusterOnChange c s).logs = s.logs ++ msgs.map (fun m => "> " ++ m)) := by
  refine ⟨?_, fun logs msgs => addLogs_eq msgs logs, ?_, ?_, ?_⟩
  · intro logs m
    refine ⟨?_, ?_, rfl⟩ <;> simp [addLog]
  · intro e s
    cases e with
    | connect pk => exact ⟨["[connect] " ++ pk], by simp [handleEvent, addLog]⟩
    | disconnect => exact ⟨["[disconnect] 👋"], by simp [handleEvent, addLog]⟩
    | accountChanged opk =>
        cases opk with
        | some pk =>
            exact ⟨["[accountChanged] Switched account to " ++ pk],
              by simp [handleEvent, addLog]⟩
        | none =>
            exact ⟨["[accountChanged] Switched unknown account"],
              by simp [handleEvent, addLog]⟩
  · intro c err s
    exact ⟨rejectionLogMsgs c err, by rw [runRejected_logs, addLogs_eq]⟩
  · intro c s
    by_cases h : c = s.cluster
    · exact ⟨[], by simp [selectClusterOnChange, h]⟩
    · exact ⟨["[cluster changed] " ++ c.name], by simp [selectClusterOnChange, h, addLog]⟩

end SolanaProviderTest
